import Mathlib

/-!
# Chat-App-Back: message and profile handlers

A shallow embedding of `src/routes/api/messages.go` and
`src/routes/api/profiles.go`.

* The two collections (`users`, `messages`) are lists in natural (insertion)
  order; a handler that writes returns the new database next to its outcome.
* A handler's outcome is either the JSON response it wrote or a Go runtime
  panic (failed type assertion, index out of range).
* What the handlers read from outside (request body, authenticated uid, route
  parameter, fresh object id, clock, health of the driver) is explicit input.
-/

namespace ChatApp

/-! ## Identifiers (`primitive.ObjectID`, `primitive.DateTime`) -/

/-- The driver's `primitive.ObjectID`, a sequence of bytes (`[12]byte`). -/
structure ObjectID where
  bytes : List (Fin 256)
  deriving DecidableEq, Repr

/-- Milliseconds since the epoch (`primitive.DateTime`). -/
abbrev DateTime := Int

/-- One lowercase hexadecimal digit. -/
def hexChar (n : Nat) : Char :=
  "0123456789abcdef".data.getD n '0'

/-- The method `ObjectID.Hex`: two lowercase hexadecimal digits per byte. -/
def ObjectID.Hex (o : ObjectID) : String :=
  String.mk (o.bytes.flatMap (fun b => [hexChar (b.val / 16), hexChar (b.val % 16)]))

/-- Value of a hexadecimal digit, either case (`encoding/hex`). -/
def hexVal (c : Char) : Option Nat :=
  if '0' ≤ c ∧ c ≤ '9' then some (c.toNat - '0'.toNat)
  else if 'a' ≤ c ∧ c ≤ 'f' then some (c.toNat - 'a'.toNat + 10)
  else if 'A' ≤ c ∧ c ≤ 'F' then some (c.toNat - 'A'.toNat + 10)
  else none

/-- Decode pairs of hexadecimal digits into bytes; `none` on a bad digit or an
odd number of digits. -/
def hexDecode : List Char → Option (List (Fin 256))
  | [] => some []
  | [_] => none
  | h :: l :: rest =>
    match hexVal h, hexVal l, hexDecode rest with
    | some a, some b, some bs => some (Fin.ofNat (16 * a + b) :: bs)
    | _, _, _ => none

/-- The driver's `primitive.ObjectIDFromHex`: the string must be exactly 24 hexadecimal
digits; `none` is the driver's `ErrInvalidHex`. -/
def ObjectIDFromHex (s : String) : Option ObjectID :=
  if s.data.length ≠ 24 then none
  else (hexDecode s.data).map ObjectID.mk

/-! ## Stored records (`models.User`, `models.Message`) -/

/-- Modelled from the spec: `models.User` is declared outside the two route
files. The fields are those the handlers read (`ID`, `Username`,
`CustomStatus`, `ProfilePicture`, the last two pointers and so optional), the
presence `status` the online filter matches on, and `other` for every further
stored field (credentials and the like). -/
structure User where
  ID : ObjectID
  Username : String
  CustomStatus : Option String
  ProfilePicture : Option String
  status : String
  other : List (String × String)
  deriving DecidableEq, Repr

/-- Modelled from the spec: `models.Message` is declared outside the two route
files; these are the four fields `HandleSendMessage` fills in. -/
structure Message where
  ID : ObjectID
  SenderID : String
  Content : String
  CreatedAt : DateTime
  deriving DecidableEq, Repr

/-- The database `Chat-App`: its two collections in natural order. -/
structure DB where
  users : List User
  messages : List Message
  deriving DecidableEq, Repr

/-! ## Loosely typed documents (`bson.M`, `primitive.A`) -/

/-- A decoded BSON value as the aggregation cursor hands it to Go. `null` is
also what indexing a `bson.M` with a missing key yields (the nil interface). -/
inductive BVal where
  | null
  | str (s : String)
  | oid (o : ObjectID)
  | date (t : DateTime)
  | arr (xs : List BVal)
  | doc (kv : List (String × BVal))

/-- Index a `bson.M` by key: `raw["k"]`. -/
def BVal.get (v : BVal) (k : String) : BVal :=
  match v with
  | .doc kv => ((kv.find? (fun p => p.1 == k)).map Prod.snd).getD .null
  | _ => .null

/-- The assertion `x.(string)`; `none` is the panic. -/
def BVal.asString : BVal → Option String
  | .str s => some s
  | _ => none

/-- The assertion `x.(primitive.ObjectID)`; `none` is the panic. -/
def BVal.asObjectID : BVal → Option ObjectID
  | .oid o => some o
  | _ => none

/-- The assertion `x.(primitive.DateTime)`; `none` is the panic. -/
def BVal.asDateTime : BVal → Option DateTime
  | .date t => some t
  | _ => none

/-- The assertion `x.(primitive.A)`; `none` is the panic. -/
def BVal.asArray : BVal → Option (List BVal)
  | .arr xs => some xs
  | _ => none

/-- The assertion `x.(bson.M)`; `none` is the panic. -/
def BVal.asDoc : BVal → Option BVal
  | .doc kv => some (.doc kv)
  | _ => none

/-- An optional string field (`*string`) as stored: the value, or null when
the pointer is nil. Were the field left out of the document instead, indexing
the `bson.M` would give the same nil. -/
def optStr : Option String → BVal
  | some s => .str s
  | none => .null

/-- The stored document of a user. -/
def User.toBson (u : User) : BVal :=
  .doc ([("_id", .oid u.ID), ("username", .str u.Username),
         ("custom_status", optStr u.CustomStatus),
         ("profile_picture", optStr u.ProfilePicture),
         ("status", .str u.status)]
        ++ u.other.map (fun p => (p.1, BVal.str p.2)))

/-! ## The persistence gateway (driver calls) -/

/-- Health of the driver during one request: whether the command itself
returns an error, and whether a cursor breaks after delivering some
documents. -/
structure Driver where
  callErr : Bool
  cursorBreak : Option Nat
  deriving DecidableEq, Repr

/-- A driver whose calls all go through. -/
def Driver.ok : Driver := { callErr := false, cursorBreak := none }

/-- What a store call can report. -/
inductive StoreErr where
  | driver
  | conversion
  | noDocuments
  deriving DecidableEq, Repr

/-- A cursor: the documents `Next` delivers before it returns false, and what
`Err` reports afterwards. -/
structure Cursor (α : Type) where
  docs : List α
  err : Bool

/-- Open a cursor over the result documents of a command. -/
def Driver.cursor {α : Type} (d : Driver) (docs : List α) : Cursor α :=
  match d.cursorBreak with
  | none => { docs := docs, err := false }
  | some k => { docs := docs.take k, err := true }

/-- The call `Collection("messages").InsertOne`: append in natural order. -/
def InsertOne (d : Driver) (coll : List Message) (m : Message) :
    Except StoreErr (List Message) :=
  if d.callErr then .error .driver else .ok (coll ++ [m])

/-- The call `Collection("users").UpdateOne` with filter `_id = id` and
`$set: username`: the first matching document is updated. -/
def UpdateOneUsername (id : ObjectID) (name : String) : List User → List User
  | [] => []
  | u :: us =>
    if u.ID = id then { u with Username := name } :: us
    else u :: UpdateOneUsername id name us

/-- The call `UpdateOne` on the users collection through the driver. -/
def UpdateOne (d : Driver) (coll : List User) (id : ObjectID) (name : String) :
    Except StoreErr (List User) :=
  if d.callErr then .error .driver else .ok (UpdateOneUsername id name coll)

/-- The call `Collection("users").FindOne(filter _id = id).Decode(&user)`:
the first user with that id; an error when the driver fails or no document
matches. A stored user always decodes into `models.User`. -/
def FindOne (d : Driver) (coll : List User) (id : ObjectID) : Except StoreErr User :=
  if d.callErr then .error .driver
  else match coll.find? (fun u => decide (u.ID = id)) with
    | some u => .ok u
    | none => .error .noDocuments

/-- The call `Collection("users").Find(filter status = "online")`. -/
def Find (d : Driver) (coll : List User) : Except StoreErr (Cursor User) :=
  if d.callErr then .error .driver
  else .ok (d.cursor (coll.filter (fun u => decide (u.status = "online"))))

/-- One message after the pipeline stages `$addFields` (`$toObjectId` of
`sender_id`, which fails on a string that is not 24 hexadecimal digits) and
`$lookup` (every user whose `_id` equals the converted id, as array `user`). -/
def pipelineDoc (users : List User) (m : Message) : Option BVal :=
  match ObjectIDFromHex m.SenderID with
  | none => none
  | some sid =>
    some (.doc [("_id", .oid m.ID), ("sender_id", .str m.SenderID),
                ("content", .str m.Content), ("created_at", .date m.CreatedAt),
                ("sender_id_object", .oid sid),
                ("user", .arr ((users.filter (fun u => decide (u.ID = sid))).map User.toBson))])

/-- Run the per-document stages over a list of messages; one failed conversion
fails the whole command. -/
def pipelineDocs (users : List User) : List Message → Option (List BVal)
  | [] => some []
  | m :: ms =>
    match pipelineDoc users m, pipelineDocs users ms with
    | some d, some ds => some (d :: ds)
    | _, _ => none

/-- The call `Collection("messages").Aggregate(pipeline)`: `$limit 100`, then
`$addFields` and `$lookup` on each remaining document. -/
def Aggregate (d : Driver) (db : DB) : Except StoreErr (Cursor BVal) :=
  if d.callErr then .error .driver
  else match pipelineDocs db.users (db.messages.take 100) with
    | none => .error .conversion
    | some docs => .ok (d.cursor docs)

/-! ## Requests and responses -/

/-- A JSON value inside the request body, as far as binding a string field can
tell: null, a string, or anything else (number, boolean, array, object). -/
inductive JVal where
  | null
  | str (s : String)
  | other
  deriving DecidableEq, Repr

/-- The request body as `encoding/json` sees it: not decodable (malformed or
empty body, or a top-level value that is neither null nor an object), the
top-level `null`, or an object with its members in order. -/
inductive Body where
  | malformed
  | null
  | object (members : List (String × JVal))
  deriving DecidableEq, Repr

/-- Modelled from the spec: the request context after the authentication
middleware, which is declared outside the two route files: the authenticated
user id, the route parameter `user_id`, and the body. -/
structure Context where
  uid : String
  user_id : String
  body : Body
  deriving DecidableEq, Repr

/-- What a handler reads from the process around it: the id
`primitive.NewObjectID()` returns, the clock, and the driver. -/
structure World where
  newObjectID : ObjectID
  now : DateTime
  driver : Driver
  deriving DecidableEq, Repr

/-- Modelled from the spec: `util.GetUid` is declared outside the two route
files; the identity resolver extracts the authenticated user identifier from
the request context. -/
def GetUid (c : Context) : String := c.uid

/-- The struct `MessageUser`. -/
structure MessageUser where
  ID : String
  Username : String
  ProfilePicture : String
  deriving DecidableEq, Repr

/-- The struct `MessageContent`, one denormalized message view. -/
structure MessageContent where
  ID : String
  SenderID : String
  Me : Bool
  CreatedAt : DateTime
  Content : String
  User : MessageUser
  deriving DecidableEq, Repr

/-- The struct `UserProfileResponse`. -/
structure UserProfileResponse where
  ID : String
  Username : String
  CustomStatus : Option String
  ProfilePicture : Option String
  deriving DecidableEq, Repr

/-- The payload key of a response besides `status` and `message`. A Go slice
is a list; the nil slice a handler starts from is the list of length 0. -/
inductive Payload where
  | none
  | at_ (t : DateTime)
  | messages (ms : List MessageContent)
  | user_profile (p : UserProfileResponse)
  | online_users (ps : List UserProfileResponse)
  deriving DecidableEq, Repr

/-- The call `c.JSON(code, gin.H...)`. -/
structure Response where
  code : Nat
  status : String
  message : Option String
  payload : Payload
  deriving DecidableEq, Repr

/-- How a handler ends: it wrote a response, or the goroutine panicked. -/
inductive Outcome where
  | panic
  | sent (r : Response)
  deriving DecidableEq, Repr

/-! ## Binding the request body -/

/-- Case folding of one character of a member name, as `encoding/json`
matches keys: ASCII letters fold to lower case, and the two non-ASCII
characters that fold onto ASCII letters (long s, Kelvin sign) with them. -/
def foldChar (c : Char) : Char :=
  if 'A' ≤ c ∧ c ≤ 'Z' then Char.ofNat (c.toNat + 32)
  else if c = Char.ofNat 0x17F then 's'
  else if c = Char.ofNat 0x212A then 'k'
  else c

/-- Whether a member name selects the struct field tagged `name`. -/
def keyMatches (name : String) (k : String) : Bool :=
  k.data.map foldChar == name.data

/-- Decode the members of the body into one string field: members are taken
in order, a string sets the field, null leaves it, any other value is a type
error; a field no member sets keeps Go's zero value, the empty string. -/
def decodeField (name : String) : List (String × JVal) → String → Option String
  | [], cur => some cur
  | (k, v) :: rest, cur =>
    if keyMatches name k then
      match v with
      | .str s => decodeField name rest s
      | .null => decodeField name rest cur
      | .other => none
    else decodeField name rest cur

/-- The struct `GetMessageContent`; neither field carries a `binding` or
`validate` tag. -/
structure GetMessageContent where
  Content : String
  ChannelId : String
  deriving DecidableEq, Repr

/-- The struct `ChangeUsername`; `Username` is tagged `binding:"required"`. -/
structure ChangeUsername where
  Username : String
  deriving DecidableEq, Repr

/-- The call `c.BindJSON(&messageContent)`: decode, then check the `binding` tags, of
which `GetMessageContent` has none. -/
def BindJSON_GetMessageContent (b : Body) : Option GetMessageContent :=
  match b with
  | .malformed => none
  | .null => some { Content := "", ChannelId := "" }
  | .object ms =>
    match decodeField "content" ms "", decodeField "channel_id" ms "" with
    | some c, some ch => some { Content := c, ChannelId := ch }
    | _, _ => none

/-- The call `c.BindJSON(&changeUsername)`: decode, then check the `binding` tags:
`required` rejects the zero value, the empty string. -/
def BindJSON_ChangeUsername (b : Body) : Option ChangeUsername :=
  let decoded : Option ChangeUsername :=
    match b with
    | .malformed => none
    | .null => some { Username := "" }
    | .object ms => (decodeField "username" ms "").map ChangeUsername.mk
  match decoded with
  | none => none
  | some cu => if cu.Username = "" then none else some cu

/-- The call `validate.Struct(x)`: checks the `validate` tags of the struct. No struct
of the two route files carries one, so there is nothing it can reject. -/
def validateStruct {α : Type} (_ : α) : Bool := true

/-! ## `messages.go` -/

/-- The handler `HandleSendMessage` (POST `send_message`). -/
def HandleSendMessage (w : World) (c : Context) (db : DB) : Outcome × DB :=
  -- Validate json structure
  match BindJSON_GetMessageContent c.body with
  | none => (.sent { code := 400, status := "error",
                     message := some "Invalid request body", payload := .none }, db)
  | some messageContent =>
    if validateStruct messageContent = false then
      (.sent { code := 400, status := "error",
               message := some "Invalid request body", payload := .none }, db)
    else
      -- Get the sender's uid and attempt to send the message.
      let uid := GetUid c
      let message : Message :=
        { ID := w.newObjectID, SenderID := uid,
          Content := messageContent.Content, CreatedAt := w.now }
      match InsertOne w.driver db.messages message with
      | .error _ => (.sent { code := 500, status := "error",
                             message := some "Failed to send message", payload := .none }, db)
      | .ok messages =>
        (.sent { code := 200, status := "success",
                 message := some "Message sent successfully",
                 payload := .at_ message.CreatedAt },
         { db with messages := messages })

/-- The struct literal `MessageContent{...}` built from one raw document in
the loop of `HandleGetMessages`: every field is a forced type assertion, and
the joined user is element 0 of the array `user`. `none` is a panic. -/
def messageContentOf (uid : String) (raw : BVal) : Option MessageContent := do
  let id ← (raw.get "_id").asObjectID
  let senderID ← (raw.get "sender_id").asString
  let createdAt ← (raw.get "created_at").asDateTime
  let content ← (raw.get "content").asString
  let users ← (raw.get "user").asArray
  let user0 ← users.head?
  let user ← user0.asDoc
  let userID ← (user.get "_id").asObjectID
  let username ← (user.get "username").asString
  let profilePicture ← (user.get "profile_picture").asString
  pure { ID := id.Hex, SenderID := senderID, Me := decide (senderID = uid),
         CreatedAt := createdAt, Content := content,
         User := { ID := userID.Hex, Username := username,
                   ProfilePicture := profilePicture } }

/-- The loop `for cursor.Next(c)` of `HandleGetMessages`: each document is
turned into a view and appended to `messages`; a panic ends everything.
Decoding a document into the untyped `bson.M` does not fail. -/
def messagesLoop (uid : String) : List BVal → List MessageContent → Option (List MessageContent)
  | [], messages => some messages
  | raw :: rest, messages =>
    match messageContentOf uid raw with
    | none => none
    | some messageContent => messagesLoop uid rest (messages ++ [messageContent])

/-- The handler `HandleGetMessages` (GET `get_messages`). The loop ends when
`Next` returns false and the handler does not look at `cursor.Err`. -/
def HandleGetMessages (w : World) (c : Context) (db : DB) : Outcome :=
  -- Get uid
  let uid := GetUid c
  -- Get all messages in the channel
  match Aggregate w.driver db with
  | .error _ => .sent { code := 500, status := "error",
                        message := some "Failed to fetch messages", payload := .none }
  | .ok cursor =>
    match messagesLoop uid cursor.docs [] with
    | none => .panic
    | some messages => .sent { code := 200, status := "success",
                               message := none, payload := .messages messages }

/-! ## `profiles.go` -/

/-- The handler `HandleChangeUsername` (POST `change_username`). -/
def HandleChangeUsername (w : World) (c : Context) (db : DB) : Outcome × DB :=
  -- Validate json structure
  match BindJSON_ChangeUsername c.body with
  | none => (.sent { code := 400, status := "error",
                     message := some "Invalid request body", payload := .none }, db)
  | some changeUsername =>
    if validateStruct changeUsername = false then
      (.sent { code := 400, status := "error",
               message := some "Invalid request body", payload := .none }, db)
    else
      -- Get the sender's uid and attempt to change the username.
      let uid := GetUid c
      match ObjectIDFromHex uid with
      | none => (.sent { code := 400, status := "error",
                         message := some "Invalid user ID", payload := .none }, db)
      | some objectID =>
        match UpdateOne w.driver db.users objectID changeUsername.Username with
        | .error _ => (.sent { code := 500, status := "error",
                               message := some "Failed to change username", payload := .none }, db)
        | .ok users =>
          (.sent { code := 200, status := "success",
                   message := some "Username changed successfully",
                   payload := .none },
           { db with users := users })

/-- The struct literal `UserProfileResponse{...}` the three read handlers
build from a decoded `models.User`. -/
def userProfileOf (user : User) : UserProfileResponse :=
  { ID := user.ID.Hex, Username := user.Username,
    CustomStatus := user.CustomStatus, ProfilePicture := user.ProfilePicture }

/-- The body shared by the two profile handlers from the parsed id on. -/
def getProfile (w : World) (db : DB) (uid : String) : Outcome :=
  match ObjectIDFromHex uid with
  | none => .sent { code := 400, status := "error",
                    message := some "Invalid user ID", payload := .none }
  | some objectID =>
    -- Find the user in the database
    match FindOne w.driver db.users objectID with
    | .error _ => .sent { code := 404, status := "error",
                          message := some "User not found", payload := .none }
    | .ok user =>
      -- Return the user profile as a JSON response
      .sent { code := 200, status := "success",
              message := none, payload := .user_profile (userProfileOf user) }

/-- The handler `HandleGetUserProfile`: the id is the route parameter `user_id`. -/
def HandleGetUserProfile (w : World) (c : Context) (db : DB) : Outcome :=
  getProfile w db c.user_id

/-- The handler `HandleGetOwnProfile`: the id is the authenticated uid. -/
def HandleGetOwnProfile (w : World) (c : Context) (db : DB) : Outcome :=
  getProfile w db (GetUid c)

/-- The loop `for cursor.Next(c)` of `HandleGetOnlineUsers`: each user is
turned into a profile view and appended to `userProfiles`. A stored user
always decodes into `models.User`, so `cursor.Decode` does not fail here. -/
def onlineLoop : List User → List UserProfileResponse → List UserProfileResponse
  | [], userProfiles => userProfiles
  | user :: rest, userProfiles => onlineLoop rest (userProfiles ++ [userProfileOf user])

/-- The handler `HandleGetOnlineUsers` (GET `get_online_users`). -/
def HandleGetOnlineUsers (w : World) (_c : Context) (db : DB) : Outcome :=
  -- Find all users with a status of "online"
  match Find w.driver db.users with
  | .error _ => .sent { code := 500, status := "error",
                        message := some "Failed to fetch online users", payload := .none }
  | .ok cursor =>
    let userProfiles := onlineLoop cursor.docs []
    if cursor.err then .sent { code := 500, status := "error",
                               message := some "Failed to fetch online users", payload := .none }
    else .sent { code := 200, status := "success",
                 message := none, payload := .online_users userProfiles }

/-! ## Reading a handler's outcome -/

/-- The error response expected of a handler: the given HTTP code, status
"error", the given message and no payload. -/
def errorJSON (code : Nat) (msg : String) : Outcome :=
  .sent { code := code, status := "error", message := some msg, payload := .none }

/-- The success response expected of a read handler: HTTP 200, status
"success", no message, and the given payload. -/
def successJSON (p : Payload) : Outcome :=
  .sent { code := 200, status := "success", message := none, payload := p }

/-- The message views an outcome carries: the `messages` payload of the
response, and no view when the outcome carries none. -/
def Outcome.views : Outcome → List MessageContent
  | .sent { payload := .messages ms, .. } => ms
  | _ => []

/-- The profile views an outcome carries, under `user_profile` or
`online_users`. -/
def Outcome.profiles : Outcome → List UserProfileResponse
  | .sent { payload := .user_profile p, .. } => [p]
  | .sent { payload := .online_users ps, .. } => ps
  | _ => []

/-- The success response of `HandleSendMessage`. -/
def sendOk (t : DateTime) : Outcome :=
  .sent { code := 200, status := "success",
          message := some "Message sent successfully", payload := .at_ t }

/-- The success response of `HandleChangeUsername`. -/
def renameOk : Outcome :=
  .sent { code := 200, status := "success",
          message := some "Username changed successfully", payload := .none }

/-! ## The join, stated on the records

What the enrichment is meant to compute for one message, written on the
typed records instead of the raw documents. Used to state results only. -/

/-- The view of message `m` sent by user `u` whose profile picture is `pic`,
as seen by requester `uid`. -/
def viewOf (uid : String) (m : Message) (u : User) (pic : String) : MessageContent :=
  { ID := m.ID.Hex, SenderID := m.SenderID, Me := decide (m.SenderID = uid),
    CreatedAt := m.CreatedAt, Content := m.Content,
    User := { ID := u.ID.Hex, Username := u.Username, ProfilePicture := pic } }

/-- The view of a message when its sender id parses, a user with that id is
stored, and that user has a profile picture. -/
def joinView (users : List User) (uid : String) (m : Message) : Option MessageContent :=
  match ObjectIDFromHex m.SenderID with
  | none => none
  | some sid =>
    match users.find? (fun u => decide (u.ID = sid)) with
    | none => none
    | some u =>
      match u.ProfilePicture with
      | none => none
      | some pic => some (viewOf uid m u pic)

/-- A message's sender resolves: the sender id is a well-formed identifier,
a user with that identifier is stored, and the stored user document has the
string `profile_picture` the join reads. -/
def resolves (users : List User) (m : Message) : Bool :=
  match ObjectIDFromHex m.SenderID with
  | none => false
  | some sid =>
    match users.find? (fun u => decide (u.ID = sid)) with
    | none => false
    | some u => u.ProfilePicture.isSome

/-- The message fields a view repeats. -/
def MessageContent.key (v : MessageContent) : String × String × String × DateTime :=
  (v.ID, v.SenderID, v.Content, v.CreatedAt)

/-- The fields of a stored message as a view shows them. -/
def Message.key (m : Message) : String × String × String × DateTime :=
  (m.ID.Hex, m.SenderID, m.Content, m.CreatedAt)

/-- What a profile view may depend on: the four public fields of a user, and
whether the online filter selects it. -/
def User.pub (u : User) : ObjectID × String × Option String × Option String × Bool :=
  (u.ID, u.Username, u.CustomStatus, u.ProfilePicture, decide (u.status = "online"))

/-! ## Sample data -/

/-- A user with a profile picture, online. -/
def alice : User :=
  { ID := ⟨List.replicate 12 0xab⟩, Username := "alice", CustomStatus := some "busy",
    ProfilePicture := some "/img/alice.png", status := "online",
    other := [("password", "hunter2")] }

/-- A user without a profile picture, offline. -/
def bob : User :=
  { ID := ⟨List.replicate 12 0x01⟩, Username := "bob", CustomStatus := none,
    ProfilePicture := none, status := "offline", other := [("password", "s3cret")] }

/-- The hexadecimal id of `alice`. -/
def aliceHex : String := "abababababababababababab"

/-- The hexadecimal id of `bob`. -/
def bobHex : String := "010101010101010101010101"

/-- A well-formed id no sample user has. -/
def ghostHex : String := "ffffffffffffffffffffffff"

/-- A world with a healthy driver. -/
def world0 : World :=
  { newObjectID := ⟨List.replicate 12 0x07⟩, now := 1700000000000, driver := Driver.ok }

/-- A world whose driver fails every call. -/
def worldDown : World :=
  { newObjectID := ⟨List.replicate 12 0x07⟩, now := 1700000000000,
    driver := { callErr := true, cursorBreak := none } }

/-- A request context of the given user with the given body. -/
def ctx (uid : String) (body : Body) : Context :=
  { uid := uid, user_id := "", body := body }

/-- The `i`-th stored message, of the given sender; distinct `i` below 256
give distinct ids. -/
def msg (i : Nat) (sender content : String) : Message :=
  { ID := ⟨List.replicate 11 0x05 ++ [Fin.ofNat i]⟩, SenderID := sender, Content := content,
    CreatedAt := 1600000000000 + i }

/-- A message store of `n` messages sent by `alice`, with distinct ids. -/
def oldMessages (n : Nat) : List Message :=
  (List.range n).map (fun i => msg i aliceHex "old")


/-! ## Lemmas on the join -/

theorem messageContentOf_pipelineDoc (users : List User) (uid : String) (m : Message)
    (d : BVal) (h : pipelineDoc users m = some d) :
    messageContentOf uid d = joinView users uid m := by
  unfold pipelineDoc at h
  unfold joinView
  cases hs : ObjectIDFromHex m.SenderID with
  | none => simp [hs] at h
  | some sid =>
    simp only [hs, Option.some.injEq] at h
    subst h
    dsimp only
    rw [← List.filter_head?]
    cases hf : users.filter (fun u => decide (u.ID = sid)) with
    | nil =>
      simp [messageContentOf, BVal.get, BVal.asObjectID, BVal.asString, BVal.asDateTime,
        BVal.asArray]
    | cons u us =>
      cases hp : u.ProfilePicture with
      | none =>
        simp [messageContentOf, BVal.get, BVal.asObjectID, BVal.asString, BVal.asDateTime,
          BVal.asArray, User.toBson, BVal.asDoc, optStr, hp]
      | some pic =>
        simp [messageContentOf, BVal.get, BVal.asObjectID, BVal.asString, BVal.asDateTime,
          BVal.asArray, User.toBson, BVal.asDoc, optStr, hp, viewOf]

theorem resolves_eq_isSome (users : List User) (uid : String) (m : Message) :
    resolves users m = (joinView users uid m).isSome := by
  unfold resolves joinView
  cases ObjectIDFromHex m.SenderID with
  | none => rfl
  | some sid =>
    dsimp only
    cases users.find? (fun u => decide (u.ID = sid)) with
    | none => rfl
    | some u =>
      dsimp only
      cases u.ProfilePicture <;> rfl

theorem joinView_key (users : List User) (uid : String) (m : Message) (v : MessageContent)
    (h : joinView users uid m = some v) :
    v.key = m.key ∧ v.Me = decide (m.SenderID = uid) := by
  unfold joinView at h
  cases hs : ObjectIDFromHex m.SenderID with
  | none => simp [hs] at h
  | some sid =>
    cases hf : users.find? (fun u => decide (u.ID = sid)) with
    | none => simp [hs, hf] at h
    | some u =>
      cases hp : u.ProfilePicture with
      | none => simp [hs, hf, hp] at h
      | some pic =>
        simp only [hs, hf, hp, Option.some.injEq] at h
        subst h
        exact ⟨rfl, rfl⟩

theorem messageContentOf_me (uid : String) (raw : BVal) (v : MessageContent)
    (h : messageContentOf uid raw = some v) : v.Me = decide (v.SenderID = uid) := by
  simp only [messageContentOf, Option.bind_eq_bind, Option.bind_eq_some, Option.pure_def,
    Option.some.injEq] at h
  obtain ⟨_, _, s, _, _, _, _, _, _, _, _, _, _, _, _, _, _, _, _, _, rfl⟩ := h
  rfl

/-! ## Lemmas on the loops -/

theorem messagesLoop_length (uid : String) :
    ∀ (docs : List BVal) (acc res : List MessageContent),
      messagesLoop uid docs acc = some res → res.length = acc.length + docs.length
  | [], acc, res, h => by
    simp only [messagesLoop, Option.some.injEq] at h
    simp [h]
  | raw :: rest, acc, res, h => by
    unfold messagesLoop at h
    cases hm : messageContentOf uid raw with
    | none => simp [hm] at h
    | some v =>
      simp only [hm] at h
      have := messagesLoop_length uid rest _ _ h
      simp only [List.length_append, List.length_cons, List.length_nil] at this ⊢
      omega

theorem messagesLoop_mem (uid : String) :
    ∀ (docs : List BVal) (acc res : List MessageContent),
      messagesLoop uid docs acc = some res →
      ∀ v ∈ res, v ∈ acc ∨ ∃ raw ∈ docs, messageContentOf uid raw = some v
  | [], acc, res, h, v, hv => by
    simp only [messagesLoop, Option.some.injEq] at h
    subst h
    exact Or.inl hv
  | raw :: rest, acc, res, h, v, hv => by
    unfold messagesLoop at h
    cases hm : messageContentOf uid raw with
    | none => simp [hm] at h
    | some v0 =>
      simp only [hm] at h
      rcases messagesLoop_mem uid rest _ _ h v hv with h1 | ⟨r, hr, hrv⟩
      · rcases List.mem_append.mp h1 with h2 | h2
        · exact Or.inl h2
        · refine Or.inr ⟨raw, List.mem_cons_self _ _, ?_⟩
          rw [List.mem_singleton.mp h2]
          exact hm
      · exact Or.inr ⟨r, List.mem_cons_of_mem _ hr, hrv⟩

theorem messagesLoop_covers (uid : String) :
    ∀ (docs : List BVal) (acc res : List MessageContent),
      messagesLoop uid docs acc = some res →
      (∀ v ∈ acc, v ∈ res) ∧ ∀ raw ∈ docs, ∃ v ∈ res, messageContentOf uid raw = some v
  | [], acc, res, h => by
    simp only [messagesLoop, Option.some.injEq] at h
    subst h
    exact ⟨fun _ hv => hv, fun _ hr => absurd hr (List.not_mem_nil _)⟩
  | raw :: rest, acc, res, h => by
    unfold messagesLoop at h
    cases hm : messageContentOf uid raw with
    | none => simp [hm] at h
    | some v0 =>
      simp only [hm] at h
      obtain ⟨hacc, hrest⟩ := messagesLoop_covers uid rest _ _ h
      refine ⟨fun v hv => hacc v (List.mem_append_left _ hv), ?_⟩
      intro r hr
      rcases List.mem_cons.mp hr with rfl | hr
      · exact ⟨v0, hacc v0 (List.mem_append_right _ (List.mem_singleton_self _)), hm⟩
      · exact hrest r hr

theorem pipelineDocs_length (users : List User) :
    ∀ (ms : List Message) (docs : List BVal),
      pipelineDocs users ms = some docs → docs.length = ms.length
  | [], docs, h => by
    simp only [pipelineDocs, Option.some.injEq] at h
    subst h; rfl
  | m :: ms, docs, h => by
    unfold pipelineDocs at h
    cases hd : pipelineDoc users m with
    | none => simp [hd] at h
    | some d =>
      cases hds : pipelineDocs users ms with
      | none => simp [hd, hds] at h
      | some ds =>
        simp only [hd, hds, Option.some.injEq] at h
        subst h
        simp [pipelineDocs_length users ms ds hds]

theorem pipelineDocs_mem (users : List User) :
    ∀ (ms : List Message) (docs : List BVal),
      pipelineDocs users ms = some docs →
      ∀ m ∈ ms, ∃ d ∈ docs, pipelineDoc users m = some d
  | [], _, _, m, hm => absurd hm (List.not_mem_nil _)
  | m0 :: ms, docs, h, m, hm => by
    unfold pipelineDocs at h
    cases hd : pipelineDoc users m0 with
    | none => simp [hd] at h
    | some d =>
      cases hds : pipelineDocs users ms with
      | none => simp [hd, hds] at h
      | some ds =>
        simp only [hd, hds, Option.some.injEq] at h
        subst h
        rcases List.mem_cons.mp hm with rfl | hm
        · exact ⟨d, List.mem_cons_self _ _, hd⟩
        · obtain ⟨d1, hd1, h1⟩ := pipelineDocs_mem users ms ds hds m hm
          exact ⟨d1, List.mem_cons_of_mem _ hd1, h1⟩

theorem loop_of_resolved (users : List User) (uid : String) :
    ∀ (ms : List Message) (acc : List MessageContent),
      (∀ m ∈ ms, resolves users m = true) →
      ∃ docs, pipelineDocs users ms = some docs ∧
        messagesLoop uid docs acc = some (acc ++ ms.filterMap (joinView users uid))
  | [], acc, _ => ⟨[], rfl, by simp [messagesLoop]⟩
  | m :: ms, acc, h => by
    have hm : resolves users m = true := h m (List.mem_cons_self _ _)
    rw [resolves_eq_isSome users uid m, Option.isSome_iff_exists] at hm
    obtain ⟨v, hv⟩ := hm
    have hd : ∃ d, pipelineDoc users m = some d := by
      unfold joinView at hv
      unfold pipelineDoc
      cases hs : ObjectIDFromHex m.SenderID with
      | none => simp [hs] at hv
      | some sid => exact ⟨_, rfl⟩
    obtain ⟨d, hd⟩ := hd
    obtain ⟨ds, hds, hloop⟩ :=
      loop_of_resolved users uid ms (acc ++ [v]) (fun x hx => h x (List.mem_cons_of_mem _ hx))
    refine ⟨d :: ds, ?_, ?_⟩
    · simp [pipelineDocs, hd, hds]
    · unfold messagesLoop
      rw [messageContentOf_pipelineDoc users uid m d hd, hv]
      simp only [hloop, List.filterMap_cons, hv, List.append_assoc, List.singleton_append]

theorem filterMap_joinView_key (users : List User) (uid : String) :
    ∀ (ms : List Message), (∀ m ∈ ms, resolves users m = true) →
      (ms.filterMap (joinView users uid)).map MessageContent.key = ms.map Message.key
  | [], _ => rfl
  | m :: ms, h => by
    have hm : resolves users m = true := h m (List.mem_cons_self _ _)
    rw [resolves_eq_isSome users uid m, Option.isSome_iff_exists] at hm
    obtain ⟨v, hv⟩ := hm
    have ih := filterMap_joinView_key users uid ms (fun x hx => h x (List.mem_cons_of_mem _ hx))
    simp only [List.filterMap_cons, hv, List.map_cons, ih, (joinView_key users uid m v hv).1]

theorem onlineLoop_eq :
    ∀ (us : List User) (acc : List UserProfileResponse),
      onlineLoop us acc = acc ++ us.map userProfileOf
  | [], acc => by simp [onlineLoop]
  | u :: us, acc => by
    simp [onlineLoop, onlineLoop_eq us]

/-! ## Lemmas on the handlers -/

theorem aggregate_docs_length (d : Driver) (db : DB) (cur : Cursor BVal)
    (h : Aggregate d db = .ok cur) : cur.docs.length ≤ 100 := by
  unfold Aggregate at h
  cases hc : d.callErr with
  | true => simp [hc] at h
  | false =>
    cases hp : pipelineDocs db.users (db.messages.take 100) with
    | none => simp [hc, hp] at h
    | some docs =>
      simp only [hc, hp, Bool.false_eq_true, if_false, Except.ok.injEq] at h
      subst h
      have hl : docs.length ≤ 100 := by
        rw [pipelineDocs_length db.users _ docs hp, List.length_take]
        exact Nat.min_le_left _ _
      unfold Driver.cursor
      cases d.cursorBreak with
      | none => exact hl
      | some k =>
        simp only [List.length_take]
        exact Nat.le_trans (Nat.min_le_right _ _) hl

theorem getMessages_views (w : World) (c : Context) (db : DB) :
    (HandleGetMessages w c db).views.length ≤ 100 ∧
    ∀ v ∈ (HandleGetMessages w c db).views,
      ∃ raw, messageContentOf (GetUid c) raw = some v := by
  unfold HandleGetMessages
  cases ha : Aggregate w.driver db with
  | error e => simp [errorJSON, Outcome.views]
  | ok cur =>
    dsimp only
    cases hl : messagesLoop (GetUid c) cur.docs [] with
    | none => simp [Outcome.views]
    | some ms =>
      simp only [successJSON, Outcome.views]
      constructor
      · have h1 := messagesLoop_length (GetUid c) cur.docs [] ms hl
        have h2 := aggregate_docs_length w.driver db cur ha
        simp only [List.length_nil] at h1
        omega
      · intro v hv
        rcases messagesLoop_mem (GetUid c) cur.docs [] ms hl v hv with h1 | ⟨r, _, hr⟩
        · exact absurd h1 (List.not_mem_nil _)
        · exact ⟨r, hr⟩

theorem getMessages_resolved (w : World) (c : Context) (db : DB)
    (hd : w.driver = Driver.ok)
    (h : ∀ m ∈ db.messages.take 100, resolves db.users m = true) :
    HandleGetMessages w c db =
      successJSON (.messages ((db.messages.take 100).filterMap (joinView db.users (GetUid c)))) := by
  obtain ⟨docs, hdocs, hloop⟩ := loop_of_resolved db.users (GetUid c) (db.messages.take 100) [] h
  simp only [HandleGetMessages, Aggregate, hd, Driver.ok, Driver.cursor, hdocs, hloop,
    Bool.false_eq_true, if_false, List.nil_append, successJSON]

theorem filterMap_length_of_resolved (users : List User) (uid : String) (ms : List Message)
    (h : ∀ m ∈ ms, resolves users m = true) :
    (ms.filterMap (joinView users uid)).length = ms.length := by
  have := congrArg List.length (filterMap_joinView_key users uid ms h)
  simpa using this

theorem find?_updateOneUsername (id : ObjectID) (n : String) :
    ∀ (us : List User) (u : User),
      us.find? (fun x => decide (x.ID = id)) = some u →
      (UpdateOneUsername id n us).find? (fun x => decide (x.ID = id))
        = some { u with Username := n }
  | [], u, h => by simp at h
  | x :: xs, u, h => by
    unfold UpdateOneUsername
    by_cases hx : x.ID = id
    · simp only [List.find?_cons, hx, decide_True, Option.some.injEq] at h
      subst h
      simp [hx]
    · simp only [List.find?_cons, hx, decide_False] at h
      simp only [hx, if_false, List.find?_cons, decide_False]
      exact find?_updateOneUsername id n xs u h

theorem find?_of_map_pub_eq (id : ObjectID) :
    ∀ (us vs : List User), us.map User.pub = vs.map User.pub →
      (us.find? (fun x => decide (x.ID = id))).map userProfileOf
        = (vs.find? (fun x => decide (x.ID = id))).map userProfileOf
  | [], [], _ => rfl
  | [], _ :: _, h => by simp at h
  | _ :: _, [], h => by simp at h
  | u :: us, v :: vs, h => by
    simp only [List.map_cons, List.cons.injEq] at h
    obtain ⟨huv, hrest⟩ := h
    have hid : u.ID = v.ID := congrArg (·.1) huv
    have hprof : userProfileOf u = userProfileOf v := by
      simp only [User.pub, Prod.mk.injEq] at huv
      obtain ⟨h1, h2, h3, h4, _⟩ := huv
      simp [userProfileOf, h1, h2, h3, h4]
    by_cases hx : v.ID = id
    · simp [List.find?_cons, hid, hx, hprof]
    · simp only [List.find?_cons, hid, hx, decide_False]
      exact find?_of_map_pub_eq id us vs hrest

theorem filter_online_of_map_pub_eq :
    ∀ (us vs : List User), us.map User.pub = vs.map User.pub →
      (us.filter (fun u => decide (u.status = "online"))).map userProfileOf
        = (vs.filter (fun u => decide (u.status = "online"))).map userProfileOf
  | [], [], _ => rfl
  | [], _ :: _, h => by simp at h
  | _ :: _, [], h => by simp at h
  | u :: us, v :: vs, h => by
    simp only [List.map_cons, List.cons.injEq] at h
    obtain ⟨huv, hrest⟩ := h
    have ih := filter_online_of_map_pub_eq us vs hrest
    simp only [User.pub, Prod.mk.injEq] at huv
    obtain ⟨h1, h2, h3, h4, h5⟩ := huv
    have hprof : userProfileOf u = userProfileOf v := by
      simp [userProfileOf, h1, h2, h3, h4]
    simp only [List.filter_cons, h5]
    split
    · simp [hprof, ih]
    · exact ih

theorem getProfile_eq (w : World) (db : DB) (id : String) :
    getProfile w db id =
      match ObjectIDFromHex id with
      | none => errorJSON 400 "Invalid user ID"
      | some oid =>
        if w.driver.callErr then errorJSON 404 "User not found"
        else match (db.users.find? (fun x => decide (x.ID = oid))).map userProfileOf with
          | none => errorJSON 404 "User not found"
          | some p => successJSON (.user_profile p) := by
  unfold getProfile FindOne
  cases ObjectIDFromHex id with
  | none => rfl
  | some oid =>
    dsimp only
    cases w.driver.callErr with
    | true => rfl
    | false =>
      simp only [Bool.false_eq_true, if_false]
      cases db.users.find? (fun x => decide (x.ID = oid)) <;> rfl

theorem getOnlineUsers_eq (w : World) (c : Context) (db : DB) :
    HandleGetOnlineUsers w c db =
      if w.driver.callErr then errorJSON 500 "Failed to fetch online users"
      else match w.driver.cursorBreak with
        | some _ => errorJSON 500 "Failed to fetch online users"
        | none => successJSON (.online_users
            ((db.users.filter (fun u => decide (u.status = "online"))).map userProfileOf)) := by
  unfold HandleGetOnlineUsers Find Driver.cursor
  cases w.driver.callErr with
  | true => rfl
  | false =>
    simp only [Bool.false_eq_true, if_false]
    cases w.driver.cursorBreak with
    | none => simp [onlineLoop_eq, successJSON]
    | some k => simp [errorJSON]

/-! ## Claims on `HandleSendMessage` and `HandleGetMessages` -/

/-- C1, evaluated where it fails: the only stored message is sent by `bob`,
whose id identifies exactly one stored user and whose optional
profile picture is absent. The forced assertion of `profile_picture` to a
string fails, so `HandleGetMessages` panics instead of returning a success
response with the view of that message. -/
theorem C1_absent_profile_picture_panics :
    ObjectIDFromHex bobHex = some bob.ID ∧
    [alice, bob].filter (fun u => decide (u.ID = bob.ID)) = [bob] ∧
    bob.ProfilePicture = none ∧
    HandleGetMessages world0 (ctx aliceHex .null)
      { users := [alice, bob], messages := [msg 0 bobHex "hello"] } = .panic := by
  decide

/-- C2: in every outcome of `HandleGetMessages`, for every requester, every
view it carries has `me` true exactly when the view's `sender_id` equals the
requester id. -/
theorem C2_me_iff_sender_is_requester (w : World) (c : Context) (db : DB) :
    ∀ v ∈ (HandleGetMessages w c db).views, (v.Me = true ↔ v.SenderID = GetUid c) := by
  intro v hv
  obtain ⟨raw, hraw⟩ := (getMessages_views w c db).2 v hv
  rw [messageContentOf_me (GetUid c) raw v hraw]
  exact decide_eq_true_iff

/-- Witness for C2: `alice` lists one message of her own and one of another
user with a picture; the first view has `me` true, the second false. -/
theorem C2_me_iff_sender_is_requester_witness :
    (HandleGetMessages world0 (ctx aliceHex .null)
        { users := [alice, { bob with ProfilePicture := some "/img/bob.png" }],
          messages := [msg 0 aliceHex "mine", msg 1 bobHex "theirs"] }).views.map
      (fun v => (v.SenderID, v.Me)) = [(aliceHex, true), (bobHex, false)] ∧
    ((viewOf aliceHex (msg 0 aliceHex "mine") alice "/img/alice.png").Me = true ↔
      (viewOf aliceHex (msg 0 aliceHex "mine") alice "/img/alice.png").SenderID = aliceHex) ∧
    ((viewOf aliceHex (msg 1 bobHex "theirs") bob "/img/bob.png").Me = true ↔
      (viewOf aliceHex (msg 1 bobHex "theirs") bob "/img/bob.png").SenderID = aliceHex) :=
  ⟨by decide,
   C2_me_iff_sender_is_requester world0 (ctx aliceHex .null)
      { users := [alice, { bob with ProfilePicture := some "/img/bob.png" }],
        messages := [msg 0 aliceHex "mine", msg 1 bobHex "theirs"] }
      (viewOf aliceHex (msg 0 aliceHex "mine") alice "/img/alice.png") (by decide),
   C2_me_iff_sender_is_requester world0 (ctx aliceHex .null)
      { users := [alice, { bob with ProfilePicture := some "/img/bob.png" }],
        messages := [msg 0 aliceHex "mine", msg 1 bobHex "theirs"] }
      (viewOf aliceHex (msg 1 bobHex "theirs") bob "/img/bob.png") (by decide)⟩

/-- C3, evaluated where it fails: a request whose `content` is the empty
string, and one whose `content` is absent, are both answered 200 "success"
and a message with empty content is appended to the message store, instead
of being rejected with 400 and leaving the store unchanged. -/
theorem C3_empty_content_is_stored :
    HandleSendMessage world0 (ctx aliceHex (.object [("content", .str "")]))
        { users := [alice], messages := [] }
      = (sendOk world0.now,
         { users := [alice],
           messages := [{ ID := world0.newObjectID, SenderID := aliceHex, Content := "",
                          CreatedAt := world0.now }] }) ∧
    HandleSendMessage world0 (ctx aliceHex (.object []))
        { users := [alice], messages := [] }
      = (sendOk world0.now,
         { users := [alice],
           messages := [{ ID := world0.newObjectID, SenderID := aliceHex, Content := "",
                          CreatedAt := world0.now }] }) := by
  decide

/-- C4, evaluated where it fails: the only stored message has a well-formed
sender id that no stored user has, so the joined `user` array is empty;
indexing its element 0 panics, and `HandleGetMessages` neither reports an
error nor excludes the message. -/
theorem C4_unmatched_sender_panics :
    (ObjectIDFromHex ghostHex).isSome = true ∧
    [alice].filter (fun u => decide (some u.ID = ObjectIDFromHex ghostHex)) = [] ∧
    HandleGetMessages world0 (ctx aliceHex .null)
      { users := [alice], messages := [msg 0 ghostHex "hi"] } = .panic := by
  decide

/-- C5 as stated, refuted: with 100 messages already stored, `alice` (an
existing user) sends "new"; the send succeeds and the message is stored as
the 101st, but the list that follows is the 100 older messages; no view has
the new content. -/
theorem C5_counterexample_cap_hides_new_message :
    (HandleSendMessage world0 (ctx aliceHex (.object [("content", .str "new")]))
        { users := [alice], messages := oldMessages 100 }).1
      = sendOk world0.now ∧
    (HandleSendMessage world0 (ctx aliceHex (.object [("content", .str "new")]))
        { users := [alice], messages := oldMessages 100 }).2.messages
      = oldMessages 100 ++ [{ ID := world0.newObjectID, SenderID := aliceHex,
                              Content := "new", CreatedAt := world0.now }] ∧
    HandleGetMessages world0 (ctx aliceHex .null)
        (HandleSendMessage world0 (ctx aliceHex (.object [("content", .str "new")]))
          { users := [alice], messages := oldMessages 100 }).2
      = successJSON (.messages
          ((oldMessages 100).map (fun m => viewOf aliceHex m alice "/img/alice.png"))) ∧
    ((oldMessages 100).map (fun m => viewOf aliceHex m alice "/img/alice.png")).any
        (fun v => decide (v.Content = "new")) = false := by
  decide

theorem sendMessage_ok_db (w : World) (c : Context) (db : DB) (gm : GetMessageContent)
    (hbody : BindJSON_GetMessageContent c.body = some gm)
    (hsend : (HandleSendMessage w c db).1 = sendOk w.now) :
    (HandleSendMessage w c db).2 =
      { db with messages := db.messages ++
          [{ ID := w.newObjectID, SenderID := GetUid c, Content := gm.Content,
             CreatedAt := w.now }] } := by
  unfold HandleSendMessage at hsend ⊢
  simp only [hbody, validateStruct, InsertOne] at hsend ⊢
  cases hc : w.driver.callErr with
  | true => simp [hc, errorJSON, sendOk] at hsend
  | false => simp [hc]

/-- C5, amended: when fewer than 100 messages are stored, the send by `U`
with content `c` succeeds, and the list call that follows (by `U`, with the
driver healthy) returns a success response, then its list contains a view
with content `c`, sender id `U` and `me` true. It does return a success
response when the sender of every message then stored resolves. -/
theorem C5_send_then_list_below_cap (w w' : World) (c c' : Context) (db : DB)
    (gm : GetMessageContent)
    (hlt : db.messages.length < 100)
    (hbody : BindJSON_GetMessageContent c.body = some gm)
    (hsend : (HandleSendMessage w c db).1 = sendOk w.now)
    (hd : w'.driver = Driver.ok) (hc : GetUid c' = GetUid c) :
    (∀ views,
      HandleGetMessages w' c' (HandleSendMessage w c db).2 = successJSON (.messages views) →
      ∃ v ∈ views, v.Content = gm.Content ∧ v.SenderID = GetUid c ∧ v.Me = true) ∧
    ((∀ m ∈ (HandleSendMessage w c db).2.messages, resolves db.users m = true) →
      ∃ views,
        HandleGetMessages w' c' (HandleSendMessage w c db).2 = successJSON (.messages views)) := by
  rw [sendMessage_ok_db w c db gm hbody hsend]
  generalize hnew :
    ({ ID := w.newObjectID, SenderID := GetUid c, Content := gm.Content,
       CreatedAt := w.now } : Message) = newm
  have hS : newm.SenderID = GetUid c := by rw [← hnew]
  have hC : newm.Content = gm.Content := by rw [← hnew]
  have htake : (db.messages ++ [newm]).take 100 = db.messages ++ [newm] := by
    apply List.take_of_length_le
    simp only [List.length_append, List.length_cons, List.length_nil]
    omega
  constructor
  · intro views hviews
    unfold HandleGetMessages at hviews
    simp only [Aggregate, hd, Driver.ok, Bool.false_eq_true, if_false, htake] at hviews
    cases hp : pipelineDocs db.users (db.messages ++ [newm]) with
    | none => simp [hp, errorJSON, successJSON] at hviews
    | some docs =>
      simp only [hp, Driver.cursor] at hviews
      cases hl : messagesLoop (GetUid c') docs [] with
      | none => simp [hl, successJSON] at hviews
      | some ms =>
        simp only [hl, successJSON, Outcome.sent.injEq, Response.mk.injEq, Payload.messages.injEq,
          true_and] at hviews
        subst hviews
        obtain ⟨d, hd1, hd2⟩ := pipelineDocs_mem db.users _ docs hp newm (by simp)
        obtain ⟨v, hv1, hv2⟩ := (messagesLoop_covers (GetUid c') docs [] ms hl).2 d hd1
        rw [messageContentOf_pipelineDoc db.users (GetUid c') _ d hd2] at hv2
        obtain ⟨hk, hme⟩ := joinView_key db.users (GetUid c') _ v hv2
        simp only [MessageContent.key, Message.key, Prod.mk.injEq] at hk
        refine ⟨v, hv1, hk.2.2.1.trans hC, hk.2.1.trans hS, ?_⟩
        rw [hme, hS, hc]
        exact decide_eq_true rfl
  · intro hres
    refine ⟨_, getMessages_resolved w' c' _ hd ?_⟩
    intro m hm
    exact hres m (List.mem_of_mem_take hm)

/-- Witness for C5 amended: one message stored, `alice` sends "hi", lists. -/
theorem C5_send_then_list_below_cap_witness :
    (∃ v ∈ [viewOf aliceHex (msg 0 aliceHex "old") alice "/img/alice.png",
            viewOf aliceHex { ID := world0.newObjectID, SenderID := aliceHex, Content := "hi",
                              CreatedAt := world0.now } alice "/img/alice.png"],
      v.Content = "hi" ∧ v.SenderID = aliceHex ∧ v.Me = true) ∧
    ∃ views,
      HandleGetMessages world0 (ctx aliceHex .null)
        (HandleSendMessage world0 (ctx aliceHex (.object [("content", .str "hi")]))
          { users := [alice], messages := [msg 0 aliceHex "old"] }).2
        = successJSON (.messages views) :=
  ⟨(C5_send_then_list_below_cap world0 world0
      (ctx aliceHex (.object [("content", .str "hi")])) (ctx aliceHex .null)
      { users := [alice], messages := [msg 0 aliceHex "old"] }
      { Content := "hi", ChannelId := "" }
      (by decide) (by decide) (by decide) rfl rfl).1 _ (by decide),
   (C5_send_then_list_below_cap world0 world0
      (ctx aliceHex (.object [("content", .str "hi")])) (ctx aliceHex .null)
      { users := [alice], messages := [msg 0 aliceHex "old"] }
      { Content := "hi", ChannelId := "" }
      (by decide) (by decide) (by decide) rfl rfl).2 (by decide)⟩

/-- The cap of the list, for every database: the views an outcome of
`HandleGetMessages` carries number at most 100; and with the driver healthy
and, for each of the first 100 stored messages, a stored sender whose user
document has a string `profile_picture`, the handler answers 200 "success"
with one view per message of the first 100, in store order. -/
theorem getMessages_cap_first_100 (w : World) (c : Context) (db : DB) :
    (HandleGetMessages w c db).views.length ≤ 100 ∧
    (w.driver = Driver.ok →
      (∀ m ∈ db.messages.take 100, resolves db.users m = true) →
      ∃ views,
        HandleGetMessages w c db
          = .sent { code := 200, status := "success", message := none,
                    payload := .messages views } ∧
        views.length = min 100 db.messages.length ∧
        views.map MessageContent.key = (db.messages.take 100).map Message.key) := by
  refine ⟨(getMessages_views w c db).1,
    fun hd hres => ⟨_, getMessages_resolved w c db hd hres, ?_, ?_⟩⟩
  · rw [filterMap_length_of_resolved db.users (GetUid c) _ hres, List.length_take]
  · exact filterMap_joinView_key db.users (GetUid c) _ hres

/-- C6, evaluated where it fails: two messages are stored and each sender id
is the well-formed id of exactly one stored user, so every sender resolves;
the second sender, `bob`, has no profile picture. `HandleGetMessages` panics
on the forced assertion of `profile_picture` to a string: it returns no list
at all, where the claim says a list of length min(100, 2) = 2 showing both
messages in store order. -/
theorem C6_existing_senders_yet_no_list :
    ObjectIDFromHex aliceHex = some alice.ID ∧
    ObjectIDFromHex bobHex = some bob.ID ∧
    [alice, bob].filter (fun u => decide (u.ID = alice.ID)) = [alice] ∧
    [alice, bob].filter (fun u => decide (u.ID = bob.ID)) = [bob] ∧
    HandleGetMessages world0 (ctx aliceHex .null)
      { users := [alice, bob],
        messages := [msg 0 aliceHex "first", msg 1 bobHex "second"] } = .panic ∧
    (HandleGetMessages world0 (ctx aliceHex .null)
      { users := [alice, bob],
        messages := [msg 0 aliceHex "first", msg 1 bobHex "second"] }).views.length = 0 ∧
    min 100 [msg 0 aliceHex "first", msg 1 bobHex "second"].length = 2 := by
  decide

/-! ## Claims on the profile handlers -/

/-- C7: for a requester id that is the well-formed identifier of a stored
user `u`, and a request whose body carries the non-empty username `n`,
`HandleChangeUsername` (with the driver reachable) answers 200 "success",
stores exactly `n` as that user's username and leaves the messages alone; a
profile fetch that follows, by `HandleGetOwnProfile` as the same requester or
by `HandleGetUserProfile` with that id in the route, returns the profile of
`u` with username `n`. -/
theorem C7_change_username_then_profile (w w' : World) (c c' : Context) (db : DB)
    (members : List (String × JVal)) (n : String) (oid : ObjectID) (u : User)
    (hd : w.driver.callErr = false) (hd' : w'.driver.callErr = false)
    (hid : ObjectIDFromHex (GetUid c) = some oid)
    (hu : db.users.find? (fun x => decide (x.ID = oid)) = some u)
    (hb : c.body = .object members)
    (hdec : decodeField "username" members "" = some n)
    (hn : n ≠ "")
    (hown : GetUid c' = GetUid c) (hparam : c'.user_id = GetUid c) :
    (HandleChangeUsername w c db).1 = renameOk ∧
    (HandleChangeUsername w c db).2.users.find? (fun x => decide (x.ID = oid))
      = some { u with Username := n } ∧
    (HandleChangeUsername w c db).2.messages = db.messages ∧
    HandleGetOwnProfile w' c' (HandleChangeUsername w c db).2
      = successJSON (.user_profile { userProfileOf u with Username := n }) ∧
    HandleGetUserProfile w' c' (HandleChangeUsername w c db).2
      = successJSON (.user_profile { userProfileOf u with Username := n }) := by
  have hfind := find?_updateOneUsername oid n db.users u hu
  have hres : HandleChangeUsername w c db =
      (renameOk, { db with users := UpdateOneUsername oid n db.users }) := by
    unfold HandleChangeUsername
    simp [BindJSON_ChangeUsername, hb, hdec, hn, validateStruct, hid, UpdateOne, hd, renameOk]
  rw [hres]
  refine ⟨rfl, hfind, rfl, ?_, ?_⟩
  · unfold HandleGetOwnProfile
    rw [getProfile_eq, hown, hid]
    simp [hd', hfind, userProfileOf]
  · unfold HandleGetUserProfile
    rw [getProfile_eq, hparam, hid]
    simp [hd', hfind, userProfileOf]

/-- Witness for C7: `alice` renames herself to "alicia". -/
theorem C7_change_username_then_profile_witness :
    (HandleChangeUsername world0 (ctx aliceHex (.object [("username", .str "alicia")]))
        { users := [bob, alice], messages := [] }).1 = renameOk ∧
    (HandleChangeUsername world0 (ctx aliceHex (.object [("username", .str "alicia")]))
        { users := [bob, alice], messages := [] }).2.users.find?
        (fun x => decide (x.ID = alice.ID))
      = some { alice with Username := "alicia" } ∧
    (HandleChangeUsername world0 (ctx aliceHex (.object [("username", .str "alicia")]))
        { users := [bob, alice], messages := [] }).2.messages = [] ∧
    HandleGetOwnProfile world0 { uid := aliceHex, user_id := aliceHex, body := .null }
        (HandleChangeUsername world0 (ctx aliceHex (.object [("username", .str "alicia")]))
          { users := [bob, alice], messages := [] }).2
      = successJSON (.user_profile { userProfileOf alice with Username := "alicia" }) ∧
    HandleGetUserProfile world0 { uid := aliceHex, user_id := aliceHex, body := .null }
        (HandleChangeUsername world0 (ctx aliceHex (.object [("username", .str "alicia")]))
          { users := [bob, alice], messages := [] }).2
      = successJSON (.user_profile { userProfileOf alice with Username := "alicia" }) :=
  C7_change_username_then_profile world0 world0
    (ctx aliceHex (.object [("username", .str "alicia")]))
    { uid := aliceHex, user_id := aliceHex, body := .null }
    { users := [bob, alice], messages := [] }
    [("username", .str "alicia")] "alicia" alice.ID alice
    rfl rfl (by decide) (by decide) rfl (by decide) (by decide) rfl rfl

/-- C8: for every user collection, `HandleGetOnlineUsers` (with the driver
healthy) answers 200 "success" with one profile view, made of the user's id
in hexadecimal, username, custom status and profile picture, for each stored
user whose status is exactly "online", in store order, and with no view for
any other user; when no user is online the response is still 200 "success"
and its sequence is empty (the slice of length 0 the handler starts from). -/
theorem C8_online_users_exactly (w : World) (c : Context) (db : DB)
    (hd : w.driver = Driver.ok) :
    HandleGetOnlineUsers w c db
      = .sent { code := 200, status := "success", message := none,
                payload := .online_users
                  ((db.users.filter (fun u => decide (u.status = "online"))).map
                    (fun u => { ID := u.ID.Hex, Username := u.Username,
                                CustomStatus := u.CustomStatus,
                                ProfilePicture := u.ProfilePicture })) } ∧
    (∀ p, p ∈ (HandleGetOnlineUsers w c db).profiles ↔
      ∃ u ∈ db.users, u.status = "online" ∧
        p = { ID := u.ID.Hex, Username := u.Username, CustomStatus := u.CustomStatus,
              ProfilePicture := u.ProfilePicture }) ∧
    ((∀ u ∈ db.users, u.status ≠ "online") →
      HandleGetOnlineUsers w c db
        = .sent { code := 200, status := "success", message := none,
                  payload := .online_users [] }) := by
  have h : HandleGetOnlineUsers w c db
      = .sent { code := 200, status := "success", message := none,
                payload := .online_users
                  ((db.users.filter (fun u => decide (u.status = "online"))).map
                    (fun u => { ID := u.ID.Hex, Username := u.Username,
                                CustomStatus := u.CustomStatus,
                                ProfilePicture := u.ProfilePicture })) } := by
    rw [getOnlineUsers_eq, hd]
    rfl
  refine ⟨h, ?_, ?_⟩
  · intro p
    rw [h]
    simp only [Outcome.profiles, List.mem_map, List.mem_filter, decide_eq_true_eq]
    constructor
    · rintro ⟨u, ⟨hu, hon⟩, rfl⟩
      exact ⟨u, hu, hon, rfl⟩
    · rintro ⟨u, hu, hon, rfl⟩
      exact ⟨u, ⟨hu, hon⟩, rfl⟩
  · intro hnone
    rw [h]
    have : db.users.filter (fun u => decide (u.status = "online")) = [] := by
      rw [List.filter_eq_nil_iff]
      intro u hu
      simpa using hnone u hu
    rw [this]
    rfl

/-- Witness for C8: of `bob` (offline) and `alice` (online) only `alice` is
returned, with her four public fields; with `bob` alone the answer is 200
with no view. -/
theorem C8_online_users_exactly_witness :
    HandleGetOnlineUsers world0 (ctx aliceHex .null) { users := [bob, alice], messages := [] }
      = .sent { code := 200, status := "success", message := none,
                payload := .online_users
                  [{ ID := "abababababababababababab", Username := "alice",
                     CustomStatus := some "busy",
                     ProfilePicture := some "/img/alice.png" }] } ∧
    HandleGetOnlineUsers world0 (ctx aliceHex .null) { users := [bob], messages := [] }
      = .sent { code := 200, status := "success", message := none,
                payload := .online_users [] } :=
  ⟨(C8_online_users_exactly world0 (ctx aliceHex .null)
      { users := [bob, alice], messages := [] } rfl).1.trans (by decide),
   (C8_online_users_exactly world0 (ctx aliceHex .null)
      { users := [bob], messages := [] } rfl).2.2 (by decide)⟩

/-- C9: the outcomes of `HandleGetUserProfile`, `HandleGetOwnProfile` and
`HandleGetOnlineUsers` are the same on any two databases whose user records
agree, one by one, on id, username, custom status, profile picture and on
whether the online filter selects them, however the records differ elsewhere
(status text of users not online, every other stored field, the messages);
and every profile view an outcome carries is made of exactly those four
fields of a stored user. -/
theorem C9_profiles_depend_on_public_fields (w : World) (c : Context) (db1 db2 : DB)
    (h : db1.users.map User.pub = db2.users.map User.pub) :
    HandleGetUserProfile w c db1 = HandleGetUserProfile w c db2 ∧
    HandleGetOwnProfile w c db1 = HandleGetOwnProfile w c db2 ∧
    HandleGetOnlineUsers w c db1 = HandleGetOnlineUsers w c db2 ∧
    ∀ p ∈ (HandleGetUserProfile w c db1).profiles ++ (HandleGetOwnProfile w c db1).profiles
        ++ (HandleGetOnlineUsers w c db1).profiles,
      ∃ u ∈ db1.users, p = { ID := u.ID.Hex, Username := u.Username,
                             CustomStatus := u.CustomStatus,
                             ProfilePicture := u.ProfilePicture } := by
  have hprof : ∀ id, getProfile w db1 id = getProfile w db2 id := by
    intro id
    rw [getProfile_eq, getProfile_eq]
    cases ObjectIDFromHex id with
    | none => rfl
    | some oid =>
      dsimp only
      rw [find?_of_map_pub_eq oid db1.users db2.users h]
  have hmem : ∀ id, ∀ p ∈ (getProfile w db1 id).profiles,
      ∃ u ∈ db1.users, p = userProfileOf u := by
    intro id p hp
    rw [getProfile_eq] at hp
    cases hi : ObjectIDFromHex id with
    | none => simp [hi, errorJSON, Outcome.profiles] at hp
    | some oid =>
      cases hc : w.driver.callErr with
      | true => simp [hi, hc, errorJSON, Outcome.profiles] at hp
      | false =>
        cases hf : db1.users.find? (fun x => decide (x.ID = oid)) with
        | none => simp [hi, hc, hf, errorJSON, Outcome.profiles] at hp
        | some u =>
          simp only [hi, hc, hf, Option.map_some', Bool.false_eq_true, if_false, successJSON,
            Outcome.profiles, List.mem_singleton] at hp
          exact ⟨u, List.mem_of_find?_eq_some hf, hp⟩
  refine ⟨hprof _, hprof _, ?_, ?_⟩
  · rw [getOnlineUsers_eq, getOnlineUsers_eq,
      filter_online_of_map_pub_eq db1.users db2.users h]
  · intro p hp
    rcases List.mem_append.mp hp with hp | hp
    · rcases List.mem_append.mp hp with hp | hp
      · exact hmem _ p hp
      · exact hmem _ p hp
    · rw [getOnlineUsers_eq] at hp
      cases hc : w.driver.callErr with
      | true => simp [hc, errorJSON, Outcome.profiles] at hp
      | false =>
        cases hb : w.driver.cursorBreak with
        | some k => simp [hc, hb, errorJSON, Outcome.profiles] at hp
        | none =>
          simp only [hc, hb, Bool.false_eq_true, if_false, successJSON, Outcome.profiles,
            List.mem_map, List.mem_filter] at hp
          obtain ⟨u, ⟨hu, _⟩, rfl⟩ := hp
          exact ⟨u, hu, rfl⟩

/-- Witness for C9: two databases whose users differ in credentials only. -/
theorem C9_profiles_depend_on_public_fields_witness :
    HandleGetUserProfile world0 { uid := bobHex, user_id := aliceHex, body := .null }
        { users := [alice, bob], messages := [] }
      = HandleGetUserProfile world0 { uid := bobHex, user_id := aliceHex, body := .null }
        { users := [{ alice with other := [("password", "changed")] },
                    { bob with other := [], status := "away" }],
          messages := [msg 0 bobHex "x"] } ∧
    HandleGetOwnProfile world0 { uid := bobHex, user_id := aliceHex, body := .null }
        { users := [alice, bob], messages := [] }
      = HandleGetOwnProfile world0 { uid := bobHex, user_id := aliceHex, body := .null }
        { users := [{ alice with other := [("password", "changed")] },
                    { bob with other := [], status := "away" }],
          messages := [msg 0 bobHex "x"] } ∧
    HandleGetOnlineUsers world0 { uid := bobHex, user_id := aliceHex, body := .null }
        { users := [alice, bob], messages := [] }
      = HandleGetOnlineUsers world0 { uid := bobHex, user_id := aliceHex, body := .null }
        { users := [{ alice with other := [("password", "changed")] },
                    { bob with other := [], status := "away" }],
          messages := [msg 0 bobHex "x"] } :=
  ⟨(C9_profiles_depend_on_public_fields world0
      { uid := bobHex, user_id := aliceHex, body := .null }
      { users := [alice, bob], messages := [] }
      { users := [{ alice with other := [("password", "changed")] },
                  { bob with other := [], status := "away" }],
        messages := [msg 0 bobHex "x"] } (by decide)).1,
   (C9_profiles_depend_on_public_fields world0
      { uid := bobHex, user_id := aliceHex, body := .null }
      { users := [alice, bob], messages := [] }
      { users := [{ alice with other := [("password", "changed")] },
                  { bob with other := [], status := "away" }],
        messages := [msg 0 bobHex "x"] } (by decide)).2.1,
   (C9_profiles_depend_on_public_fields world0
      { uid := bobHex, user_id := aliceHex, body := .null }
      { users := [alice, bob], messages := [] }
      { users := [{ alice with other := [("password", "changed")] },
                  { bob with other := [], status := "away" }],
        messages := [msg 0 bobHex "x"] } (by decide)).2.2.1⟩

/-- C10: neither profile handler ever panics. For an id that is a well-formed
identifier of no stored user, `HandleGetUserProfile` (id in the route) and
`HandleGetOwnProfile` (id of the requester) answer 404 "error", "User not
found". For an id that is not a well-formed identifier they answer 400
"error", "Invalid user ID", whatever the database holds and whether or not
the driver is reachable: the store is not consulted. -/
theorem C10_profile_not_found_or_invalid (w : World) (c : Context) (db : DB) :
    HandleGetUserProfile w c db ≠ .panic ∧ HandleGetOwnProfile w c db ≠ .panic ∧
    (∀ oid, ObjectIDFromHex c.user_id = some oid → (∀ u ∈ db.users, u.ID ≠ oid) →
      HandleGetUserProfile w c db = errorJSON 404 "User not found") ∧
    (∀ oid, ObjectIDFromHex (GetUid c) = some oid → (∀ u ∈ db.users, u.ID ≠ oid) →
      HandleGetOwnProfile w c db = errorJSON 404 "User not found") ∧
    (ObjectIDFromHex c.user_id = none → ∀ (w' : World) (db' : DB),
      HandleGetUserProfile w' c db' = errorJSON 400 "Invalid user ID") ∧
    (ObjectIDFromHex (GetUid c) = none → ∀ (w' : World) (db' : DB),
      HandleGetOwnProfile w' c db' = errorJSON 400 "Invalid user ID") := by
  have hnp : ∀ id, getProfile w db id ≠ .panic := by
    intro id
    rw [getProfile_eq]
    cases ObjectIDFromHex id with
    | none => simp [errorJSON]
    | some oid =>
      dsimp only
      cases w.driver.callErr with
      | true => simp [errorJSON]
      | false =>
        cases (db.users.find? (fun x => decide (x.ID = oid))).map userProfileOf <;>
          simp [errorJSON, successJSON]
  have h404 : ∀ id oid, ObjectIDFromHex id = some oid → (∀ u ∈ db.users, u.ID ≠ oid) →
      getProfile w db id = errorJSON 404 "User not found" := by
    intro id oid hid hno
    rw [getProfile_eq, hid]
    have hf : db.users.find? (fun x => decide (x.ID = oid)) = none := by
      rw [List.find?_eq_none]
      intro u hu
      simpa using hno u hu
    simp [hf]
  have h400 : ∀ id, ObjectIDFromHex id = none → ∀ (w' : World) (db' : DB),
      getProfile w' db' id = errorJSON 400 "Invalid user ID" := by
    intro id hid w' db'
    rw [getProfile_eq, hid]
  exact ⟨hnp _, hnp _, h404 _, h404 _, h400 _, h400 _⟩

/-- Witness for C10: a well-formed id of no stored user gives 404, also with
the driver down; a malformed id gives 400, also with the driver down. -/
theorem C10_profile_not_found_or_invalid_witness :
    HandleGetUserProfile world0 { uid := ghostHex, user_id := ghostHex, body := .null }
        { users := [alice, bob], messages := [] } = errorJSON 404 "User not found" ∧
    HandleGetOwnProfile world0 { uid := ghostHex, user_id := ghostHex, body := .null }
        { users := [alice, bob], messages := [] } = errorJSON 404 "User not found" ∧
    HandleGetUserProfile worldDown { uid := "not-an-id", user_id := "not-an-id", body := .null }
        { users := [], messages := [] } = errorJSON 400 "Invalid user ID" ∧
    HandleGetOwnProfile worldDown { uid := "not-an-id", user_id := "not-an-id", body := .null }
        { users := [], messages := [] } = errorJSON 400 "Invalid user ID" :=
  ⟨(C10_profile_not_found_or_invalid world0
      { uid := ghostHex, user_id := ghostHex, body := .null }
      { users := [alice, bob], messages := [] }).2.2.1 ⟨List.replicate 12 0xff⟩
      (by decide) (by decide),
   (C10_profile_not_found_or_invalid world0
      { uid := ghostHex, user_id := ghostHex, body := .null }
      { users := [alice, bob], messages := [] }).2.2.2.1 ⟨List.replicate 12 0xff⟩
      (by decide) (by decide),
   (C10_profile_not_found_or_invalid world0
      { uid := "not-an-id", user_id := "not-an-id", body := .null }
      { users := [alice, bob], messages := [] }).2.2.2.2.1 (by decide) worldDown
      { users := [], messages := [] },
   (C10_profile_not_found_or_invalid world0
      { uid := "not-an-id", user_id := "not-an-id", body := .null }
      { users := [alice, bob], messages := [] }).2.2.2.2.2 (by decide) worldDown
      { users := [], messages := [] }⟩

end ChatApp
